import Mathlib

/-!
Verification of the Geometry Synthesis & Spatial Indexing Subsystem of the
2Dto3D repository (Scripts/generate_3d_geometry.py, Scripts/fix_rtree_bboxes.py,
Scripts/geometry_generators.py, Scripts/corridor_detection.py,
Scripts/add_geometries.py).

Modelling conventions.
* The binary packing layer (`struct.pack` / `struct.unpack` with format
  characters `f` and `I`) is modelled at the level of IEEE-754 binary32 bit
  patterns: a scalar is a natural number below 2^32 and its serialization is
  the four little-endian bytes of that word.  Bytes are natural numbers below
  256 and a blob is a `List Nat` of bytes.
* The geometric layer (mesh generators, transforms, bounding boxes, corridor
  detection) is modelled over the real numbers, the usual shallow embedding of
  Python float arithmetic.
* Fallible code (a Python exception) is modelled with `Option`: `none` marks
  the raising path.
-/

/-- Little-endian serialization of one 32-bit word into four bytes, as
`struct.pack` with format character `f` or `I` lays out one scalar. -/
def packWord (w : Nat) : List Nat :=
  [w % 256, w / 256 % 256, w / 65536 % 256, w / 16777216 % 256]

/-- Little-endian deserialization of four bytes into one 32-bit word, as
`struct.unpack` reads one scalar. -/
def unpackWord (b0 b1 b2 b3 : Nat) : Nat :=
  b0 + 256 * b1 + 65536 * b2 + 16777216 * b3

/-- Source `generate_3d_geometry.pack_vertices`: pack a list of (x,y,z)
triples into a flat binary blob, `struct.pack` with `<{3n}f`: three
little-endian 4-byte scalars per vertex, no padding, no header. -/
def pack_vertices (vs : List (Nat × Nat × Nat)) : List Nat :=
  vs.flatMap fun v => packWord v.1 ++ packWord v.2.1 ++ packWord v.2.2

/-- Source `generate_3d_geometry.pack_faces`: pack a list of (i1,i2,i3) index
triples, `struct.pack` with `<{3n}I`: same flat little-endian 4-byte layout. -/
def pack_faces (fs : List (Nat × Nat × Nat)) : List Nat :=
  fs.flatMap fun f => packWord f.1 ++ packWord f.2.1 ++ packWord f.2.2

/-- Source `generate_3d_geometry.pack_normals`: identical layout to
`pack_vertices`. -/
def pack_normals (ns : List (Nat × Nat × Nat)) : List Nat :=
  ns.flatMap fun n => packWord n.1 ++ packWord n.2.1 ++ packWord n.2.2

/-- Source `fix_rtree_bboxes.unpack_vertices`: an empty blob yields `[]`;
otherwise the loop reads twelve bytes (`struct.unpack` of `<fff`) per step,
stepping three scalars at a time through `num_floats = len(blob) // 4`.
A remainder of one, two or three trailing bytes contributes no scalar and is
silently ignored; a remainder of four to eleven bytes makes the final
twelve-byte read run past the end of the blob, and `struct.unpack` raises
`struct.error` there, modelled as `none`. -/
def unpack_vertices : List Nat → Option (List (Nat × Nat × Nat))
  | b0 :: b1 :: b2 :: b3 :: b4 :: b5 :: b6 :: b7 :: b8 :: b9 :: b10 :: b11 :: rest =>
      (unpack_vertices rest).map
        (fun vs => (unpackWord b0 b1 b2 b3, unpackWord b4 b5 b6 b7,
                    unpackWord b8 b9 b10 b11) :: vs)
  | rest => if rest.length ≤ 3 then some [] else none


/-! ### SHA-256 (`hashlib.sha256`), as used by `compute_hash` -/

/-- Big-endian serialization of `v` into `k` bytes, most significant first. -/
def beBytes : Nat → Nat → List Nat
  | 0, _ => []
  | k + 1, v => beBytes k (v / 256) ++ [v % 256]

/-- Rotate a 32-bit word right by `n` bits. -/
def rotr32 (x n : Nat) : Nat :=
  ((x >>> n) ||| (x <<< (32 - n))) % 4294967296

/-- SHA-256 message-schedule sigma functions. -/
def ssig0 (w : Nat) : Nat := (rotr32 w 7) ^^^ (rotr32 w 18) ^^^ (w >>> 3)

def ssig1 (w : Nat) : Nat := (rotr32 w 17) ^^^ (rotr32 w 19) ^^^ (w >>> 10)

/-- SHA-256 compression sigma functions. -/
def bsig0 (a : Nat) : Nat := (rotr32 a 2) ^^^ (rotr32 a 13) ^^^ (rotr32 a 22)

def bsig1 (e : Nat) : Nat := (rotr32 e 6) ^^^ (rotr32 e 11) ^^^ (rotr32 e 25)

def chF (e f g : Nat) : Nat := (e &&& f) ^^^ ((e ^^^ 4294967295) &&& g)

def majF (a b c : Nat) : Nat := (a &&& b) ^^^ (a &&& c) ^^^ (b &&& c)

/-- The 64 SHA-256 round constants. -/
def sha256K : List Nat :=
  [1116352408, 1899447441, 3049323471, 3921009573, 961987163,
   1508970993, 2453635748, 2870763221, 3624381080, 310598401,
   607225278, 1426881987, 1925078388, 2162078206, 2614888103,
   3248222580, 3835390401, 4022224774, 264347078, 604807628,
   770255983, 1249150122, 1555081692, 1996064986, 2554220882,
   2821834349, 2952996808, 3210313671, 3336571891, 3584528711,
   113926993, 338241895, 666307205, 773529912, 1294757372,
   1396182291, 1695183700, 1986661051, 2177026350, 2456956037,
   2730485921, 2820302411, 3259730800, 3345764771, 3516065817,
   3600352804, 4094571909, 275423344, 430227734, 506948616,
   659060556, 883997877, 958139571, 1322822218, 1537002063,
   1747873779, 1955562222, 2024104815, 2227730452, 2361852424,
   2428436474, 2756734187, 3204031479, 3329325298]

/-- The SHA-256 initial hash value. -/
def sha256H0 : List Nat :=
  [1779033703, 3144134277, 1013904242, 2773480762,
   1359893119, 2600822924, 528734635, 1541459225]

/-- Read one big-endian 32-bit word from the first four bytes of a list. -/
def beWord (l : List Nat) : Nat :=
  ((l.getD 0 0 * 256 + l.getD 1 0) * 256 + l.getD 2 0) * 256 + l.getD 3 0

/-- Extend the sixteen message words of a chunk to the 64-entry schedule. -/
def extendSchedule (w : List Nat) : List Nat :=
  (List.range 48).foldl
    (fun acc _ =>
      acc ++ [(ssig1 (acc.getD (acc.length - 2) 0) + acc.getD (acc.length - 7) 0 +
               ssig0 (acc.getD (acc.length - 15) 0) + acc.getD (acc.length - 16) 0)
              % 4294967296])
    w

/-- One round of the SHA-256 compression loop on the eight-word state. -/
def compressStep (st : List Nat) (kw : Nat × Nat) : List Nat :=
  match st with
  | [a, b, c, d, e, f, g, h] =>
      let t1 := (h + bsig1 e + chF e f g + kw.1 + kw.2) % 4294967296
      let t2 := (bsig0 a + majF a b c) % 4294967296
      [(t1 + t2) % 4294967296, a, b, c, (d + t1) % 4294967296, e, f, g]
  | st => st

/-- Process one 64-byte chunk, updating the eight-word hash state. -/
def processChunk (hs : List Nat) (chunk : List Nat) : List Nat :=
  let w := extendSchedule ((List.range 16).map fun i => beWord (chunk.drop (4 * i)))
  let st := (sha256K.zip w).foldl compressStep hs
  (hs.zip st).map fun p => (p.1 + p.2) % 4294967296

/-- Fold `processChunk` over `n` consecutive 64-byte chunks. -/
def processChunks : Nat → List Nat → List Nat → List Nat
  | 0, _, hs => hs
  | n + 1, msg, hs => processChunks n (msg.drop 64) (processChunk hs (msg.take 64))

/-- SHA-256 of a byte sequence, as `hashlib.sha256(...).digest()`: pad with
`0x80`, zeros and the 64-bit big-endian bit length to a multiple of 64 bytes,
then compress chunk by chunk.  The source renders this 32-byte digest in hex
(`hexdigest()`), an injective presentation of the same value. -/
def sha256 (msg : List Nat) : List Nat :=
  let padZeros := (55 + 64 - msg.length % 64) % 64
  let padded := msg ++ 128 :: (List.replicate padZeros 0 ++ beBytes 8 (msg.length * 8))
  (processChunks (padded.length / 64) padded sha256H0).flatMap (beBytes 4)

/-- Source `generate_3d_geometry.compute_hash`: one `hashlib.sha256`
updated first with the vertices blob, then with the faces blob, which hashes
their concatenation in that fixed order. -/
def compute_hash (vertices_blob faces_blob : List Nat) : List Nat :=
  sha256 (vertices_blob ++ faces_blob)

/-- Digest recorded for one element by `populate_geometry_tables`
(generate_3d_geometry.py lines 436-441): the vertices and faces blobs are
hashed; the normals blob is packed and stored alongside but never enters the
digest. -/
def geom_hash (vertices faces _normals : List (Nat × Nat × Nat)) : List Nat :=
  compute_hash (pack_vertices vertices) (pack_faces faces)


/-! ### Geometry store (`base_geometries` rows) -/

/-- One row of the `base_geometries` table as created by `add_geometries.py`
(lines 115-125): `guid TEXT UNIQUE`, plain `geometry_hash TEXT` with no
uniqueness constraint, and three blobs.  The autoincrement integer id is
immaterial here. -/
structure GeomRow where
  guid : String
  geometry_hash : List Nat
  vertices : List Nat
  faces : List Nat
  normals : List Nat

/-- SQLite `INSERT OR IGNORE` against this table: the only uniqueness
constraint is on `guid`, so the insert is ignored exactly when a row with the
same guid is already present. -/
def insertOrIgnore (st : List GeomRow) (row : GeomRow) : List GeomRow :=
  if st.any fun r => r.guid == row.guid then st else st ++ [row]

/-- Loop body of `populate_geometry_tables` (generate_3d_geometry.py lines
436-448) for one element whose world-baked geometry is given: pack the three
blobs, hash vertices-then-faces, and `INSERT OR IGNORE` the row. -/
def populate_element (st : List GeomRow) (guid : String)
    (vertices faces normals : List (Nat × Nat × Nat)) : List GeomRow :=
  let vertices_blob := pack_vertices vertices
  let faces_blob := pack_faces faces
  let normals_blob := pack_normals normals
  let gh := compute_hash vertices_blob faces_blob
  insertOrIgnore st ⟨guid, gh, vertices_blob, faces_blob, normals_blob⟩

def demoVertices : List (Nat × Nat × Nat) := [(0, 0, 0), (1073741824, 0, 0)]

def demoFaces : List (Nat × Nat × Nat) := [(0, 1, 1)]

def demoNormals : List (Nat × Nat × Nat) := [(0, 0, 1065353216)]


/-! ### Geometric layer: mesh generators, transforms, bounding boxes -/

noncomputable section

open scoped Classical

/-- Vertex or vector in world space, modelled over the reals. -/
abbrev Vec3 : Type := ℝ × ℝ × ℝ

/-- Source `compute_face_normal` (identical in generate_3d_geometry.py and
geometry_generators.py): cross product of the two edge vectors, unit
normalized, falling back to the vertical unit vector for a degenerate face. -/
def compute_face_normal (v0 v1 v2 : Vec3) : Vec3 :=
  let e1 : Vec3 := (v1.1 - v0.1, v1.2.1 - v0.2.1, v1.2.2 - v0.2.2)
  let e2 : Vec3 := (v2.1 - v0.1, v2.2.1 - v0.2.1, v2.2.2 - v0.2.2)
  let nx := e1.2.1 * e2.2.2 - e1.2.2 * e2.2.1
  let ny := e1.2.2 * e2.1 - e1.1 * e2.2.2
  let nz := e1.1 * e2.2.1 - e1.2.1 * e2.1
  let len := Real.sqrt (nx * nx + ny * ny + nz * nz)
  if 0 < len then (nx / len, ny / len, nz / len) else (0, 0, 1)

/-- Source `generate_3d_geometry.rotate_vertices_z`: the standard rotation
matrix about the Z axis applied to the (x, y) components of every vertex. -/
def rotate_vertices_z (vertices : List Vec3) (angle_rad : ℝ) : List Vec3 :=
  let cos_a := Real.cos angle_rad
  let sin_a := Real.sin angle_rad
  vertices.map fun v =>
    (v.1 * cos_a - v.2.1 * sin_a, v.1 * sin_a + v.2.1 * cos_a, v.2.2)

/-- Source `generate_3d_geometry.translate_vertices`: add a constant offset
to every vertex. -/
def translate_vertices (vertices : List Vec3) (dx dy dz : ℝ) : List Vec3 :=
  vertices.map fun v => (v.1 + dx, v.2.1 + dy, v.2.2 + dz)

/-- Result triple `(vertices, faces, normals)` of a generator. -/
structure GeometryResult where
  vertices : List Vec3
  faces : List (Nat × Nat × Nat)
  normals : List Vec3

/-- The twelve-triangle face list shared verbatim by `generate_box_geometry`,
`BoxGenerator.generate` and `OrientedBoxGenerator.generate`. -/
def boxFaces : List (Nat × Nat × Nat) :=
  [(0, 1, 2), (0, 2, 3),
   (4, 7, 6), (4, 6, 5),
   (0, 4, 5), (0, 5, 1),
   (2, 6, 7), (2, 7, 3),
   (0, 3, 7), (0, 7, 4),
   (1, 5, 6), (1, 6, 2)]

/-- Per-face normals as every generator computes them from its own vertex
and face lists. -/
def faceNormals (vertices : List Vec3) (faces : List (Nat × Nat × Nat)) : List Vec3 :=
  faces.map fun f =>
    compute_face_normal (vertices.getD f.1 (0, 0, 0)) (vertices.getD f.2.1 (0, 0, 0))
      (vertices.getD f.2.2 (0, 0, 0))

/-- Source `generate_3d_geometry.generate_box_geometry`: an axis-aligned box
whose eight corners sit at `center ± half-dimension` on every axis, so the
anchor is the volume center (z runs from `center_z - height/2` to
`center_z + height/2`). -/
def generate_box_geometry (width depth height center_x center_y center_z : ℝ) :
    GeometryResult :=
  let hx := width / 2
  let hy := depth / 2
  let hz := height / 2
  let vertices : List Vec3 :=
    [(center_x - hx, center_y - hy, center_z - hz),
     (center_x + hx, center_y - hy, center_z - hz),
     (center_x + hx, center_y + hy, center_z - hz),
     (center_x - hx, center_y + hy, center_z - hz),
     (center_x - hx, center_y - hy, center_z + hz),
     (center_x + hx, center_y - hy, center_z + hz),
     (center_x + hx, center_y + hy, center_z + hz),
     (center_x - hx, center_y + hy, center_z + hz)]
  ⟨vertices, boxFaces, faceNormals vertices boxFaces⟩

/-- Source `generate_3d_geometry.generate_wall_geometry`: a wall of the given
length, thickness and height whose base sits at `center_z`; it calls the
center-anchored box generator with the center lifted by `height/2`. -/
def generate_wall_geometry (center_x center_y center_z thickness length height : ℝ) :
    GeometryResult :=
  generate_box_geometry length thickness height center_x center_y (center_z + height / 2)

namespace BoxGenerator

/-- Source `geometry_generators.BoxGenerator.generate`: an axis-aligned box
anchored at the bottom center, z running from `cz` to `cz + height`. -/
def generate (width depth height cx cy cz : ℝ) : GeometryResult :=
  let hx := width / 2
  let hy := depth / 2
  let vertices : List Vec3 :=
    [(cx - hx, cy - hy, cz), (cx + hx, cy - hy, cz),
     (cx + hx, cy + hy, cz), (cx - hx, cy + hy, cz),
     (cx - hx, cy - hy, cz + height), (cx + hx, cy - hy, cz + height),
     (cx + hx, cy + hy, cz + height), (cx - hx, cy + hy, cz + height)]
  ⟨vertices, boxFaces, faceNormals vertices boxFaces⟩

end BoxGenerator

namespace OrientedBoxGenerator

/-- Source `geometry_generators.OrientedBoxGenerator.generate`: the four
local corners (length along local X, width along local Y) are rotated by
`rotation` about Z and translated to the anchor, for the bottom ring at `cz`
and the top ring at `cz + height`. -/
def generate (length width height cx cy cz rotation : ℝ) : GeometryResult :=
  let hl := length / 2
  let hw := width / 2
  let cos_r := Real.cos rotation
  let sin_r := Real.sin rotation
  let local_corners : List (ℝ × ℝ) := [(-hl, -hw), (hl, -hw), (hl, hw), (-hl, hw)]
  let vertices : List Vec3 :=
    (local_corners.map fun c =>
      (cx + c.1 * cos_r - c.2 * sin_r, cy + c.1 * sin_r + c.2 * cos_r, cz)) ++
    (local_corners.map fun c =>
      (cx + c.1 * cos_r - c.2 * sin_r, cy + c.1 * sin_r + c.2 * cos_r, cz + height))
  ⟨vertices, boxFaces, faceNormals vertices boxFaces⟩

end OrientedBoxGenerator

namespace ExtrudedPolylineGenerator

/-- Direction vector used for the perpendicular offset at polyline vertex `i`
(forward difference at the first point, backward at the last, central
otherwise). -/
def segDelta (points : List (ℝ × ℝ)) (i : Nat) : ℝ × ℝ :=
  let n := points.length
  if i = 0 then
    ((points.getD 1 (0, 0)).1 - (points.getD 0 (0, 0)).1,
     (points.getD 1 (0, 0)).2 - (points.getD 0 (0, 0)).2)
  else if i = n - 1 then
    ((points.getD (n - 1) (0, 0)).1 - (points.getD (n - 2) (0, 0)).1,
     (points.getD (n - 1) (0, 0)).2 - (points.getD (n - 2) (0, 0)).2)
  else
    ((points.getD (i + 1) (0, 0)).1 - (points.getD (i - 1) (0, 0)).1,
     (points.getD (i + 1) (0, 0)).2 - (points.getD (i - 1) (0, 0)).2)

/-- Source `geometry_generators.ExtrudedPolylineGenerator.generate`.  With
fewer than two points the source dereferences `points[0]` and builds a unit
length box there; on the empty list that indexing raises `IndexError`,
modelled as `none`.  Otherwise the polyline is offset by `±thickness/2`
along the local perpendicular into two rails, extruded to `height`, and
capped. -/
def generate (points : List (ℝ × ℝ)) (thickness height cz : ℝ) :
    Option GeometryResult :=
  if points.length < 2 then
    match points with
    | [] => none
    | p :: _ => some (BoxGenerator.generate 1.0 thickness height p.1 p.2 cz)
  else
    let n := points.length
    let ht := thickness / 2
    let bottom : List Vec3 := (List.range n).flatMap fun i =>
      let p0 := points.getD i (0, 0)
      let d := segDelta points i
      let len := Real.sqrt (d.1 * d.1 + d.2 * d.2)
      let nv : ℝ × ℝ := if 0.001 < len then (-d.2 / len, d.1 / len) else (0, 1)
      [(p0.1 + nv.1 * ht, p0.2 + nv.2 * ht, cz),
       (p0.1 - nv.1 * ht, p0.2 - nv.2 * ht, cz)]
    let bottom_count := bottom.length
    let vertices := bottom ++ bottom.map fun v => (v.1, v.2.1, cz + height)
    let caps := (List.range (n - 1)).flatMap fun i =>
      [(2 * i, 2 * (i + 1), 2 * i + 1),
       (2 * i + 1, 2 * (i + 1), 2 * (i + 1) + 1),
       (bottom_count + 2 * i, bottom_count + 2 * i + 1, bottom_count + 2 * (i + 1)),
       (bottom_count + 2 * i + 1, bottom_count + 2 * (i + 1) + 1,
        bottom_count + 2 * (i + 1))]
    let sides := (List.range (n - 1)).flatMap fun i =>
      [(2 * i, bottom_count + 2 * i, bottom_count + 2 * (i + 1)),
       (2 * i, bottom_count + 2 * (i + 1), 2 * (i + 1)),
       (2 * i + 1, 2 * (i + 1) + 1, bottom_count + 2 * (i + 1) + 1),
       (2 * i + 1, bottom_count + 2 * (i + 1) + 1, bottom_count + 2 * i + 1)]
    let endcaps := [(0, 1, bottom_count + 1), (0, bottom_count + 1, bottom_count),
      (2 * (n - 1), bottom_count + 2 * (n - 1), bottom_count + 2 * (n - 1) + 1),
      (2 * (n - 1), bottom_count + 2 * (n - 1) + 1, 2 * (n - 1) + 1)]
    let faces := caps ++ sides ++ endcaps
    some ⟨vertices, faces, faceNormals vertices faces⟩

end ExtrudedPolylineGenerator

/-- Bounding box row `(minX, maxX, minY, maxY, minZ, maxZ)`. -/
structure BBox where
  minX : ℝ
  maxX : ℝ
  minY : ℝ
  maxY : ℝ
  minZ : ℝ
  maxZ : ℝ

/-- Source `fix_rtree_bboxes.calculate_bbox`: Python `min`/`max` over every
coordinate list, with a fixed unit-cube fallback for an empty vertex list. -/
def calculate_bbox : List Vec3 → BBox
  | [] => ⟨-0.5, 0.5, -0.5, 0.5, -0.5, 0.5⟩
  | v :: rest =>
      ⟨(rest.map fun p => p.1).foldl min v.1,
       (rest.map fun p => p.1).foldl max v.1,
       (rest.map fun p => p.2.1).foldl min v.2.1,
       (rest.map fun p => p.2.1).foldl max v.2.1,
       (rest.map fun p => p.2.2).foldl min v.2.2,
       (rest.map fun p => p.2.2).foldl max v.2.2⟩

/-- Source `fix_rtree_bboxes.fix_rtree_bboxes`, modelled at the level of the
already unpacked vertex lists: every element whose geometry has at least one
vertex gets its tight bounding box collected for the batch rtree update;
an element with no vertices is skipped and reported, never written. -/
def fix_rtree_bboxes (elems : List (Nat × List Vec3)) : List (Nat × BBox) :=
  elems.filterMap fun e => if e.2 = [] then none else some (e.1, calculate_bbox e.2)

end

/-! ### Corridor detection (`corridor_detection.py`) -/

noncomputable section

open scoped Classical

/-- Source `corridor_detection.Wall`: a wall segment with endpoints derived
from center, length and rotation, and angle in degrees. -/
structure Wall where
  guid : String
  start_x : ℝ
  start_y : ℝ
  end_x : ℝ
  end_y : ℝ
  length : ℝ
  angle : ℝ

/-- Source `Wall.midpoint`. -/
def Wall.midpoint (w : Wall) : ℝ × ℝ :=
  ((w.start_x + w.end_x) / 2, (w.start_y + w.end_y) / 2)

/-- Euclidean distance between the midpoints of two walls, the width proxy
computed inside `detect_corridor_pairs`. -/
def midpoint_distance (w1 w2 : Wall) : ℝ :=
  Real.sqrt ((w2.midpoint.1 - w1.midpoint.1) ^ 2 + (w2.midpoint.2 - w1.midpoint.2) ^ 2)

/-- Source `CorridorDetector._check_wall_overlap`: walls near vertical
(first wall's angle within 45° of 90° or of 270°) are compared on their Y
extents, otherwise on their X extents, and the interval overlap must reach
`min_overlap`. -/
def check_wall_overlap (wall1 wall2 : Wall) (min_overlap : ℝ) : Prop :=
  if |wall1.angle - 90| < 45 ∨ |wall1.angle - 270| < 45 then
    min_overlap ≤
      min (max wall1.start_y wall1.end_y) (max wall2.start_y wall2.end_y) -
        max (min wall1.start_y wall1.end_y) (min wall2.start_y wall2.end_y)
  else
    min_overlap ≤
      min (max wall1.start_x wall1.end_x) (max wall2.start_x wall2.end_x) -
        max (min wall1.start_x wall1.end_x) (min wall2.start_x wall2.end_x)

/-- Acceptance test applied to one candidate pair inside
`detect_corridor_pairs`: the midpoint distance must lie inside the width
envelope, and then the overlap check must pass. -/
def pairFilter (max_width min_width : ℝ) (wall1 wall2 : Wall) :
    Option (Wall × Wall × ℝ) :=
  let distance := midpoint_distance wall1 wall2
  if min_width ≤ distance ∧ distance ≤ max_width then
    if check_wall_overlap wall1 wall2 2.0 then some (wall1, wall2, distance) else none
  else none

/-- Source `CorridorDetector.detect_corridor_pairs`: every unordered pair of
walls from one orientation bucket, in loop order, filtered by `pairFilter`. -/
def detect_corridor_pairs : List Wall → ℝ → ℝ → List (Wall × Wall × ℝ)
  | [], _, _ => []
  | w1 :: rest, max_width, min_width =>
      rest.filterMap (pairFilter max_width min_width w1) ++
        detect_corridor_pairs rest max_width min_width

/-- Source `corridor_detection.Corridor`. -/
structure Corridor where
  corridor_id : Nat
  corridor_type : String
  centerline_points : List (ℝ × ℝ)
  width : ℝ
  length : ℝ
  direction : String
  angle : ℝ
  wall_pairs : List (String × String)

/-- Loop body of `CorridorDetector.create_corridor_centerlines` for one
accepted pair: centerline from averaged endpoints and midpoints, length from
the centerline endpoints, direction from the first wall's angle, and the
type classification `length > 20 and width > 3` → main, `length > 10` →
secondary, otherwise cross. -/
def corridorOfPair (idx : Nat) (wall1 wall2 : Wall) (width : ℝ) : Corridor :=
  let mid1 := wall1.midpoint
  let mid2 := wall2.midpoint
  let centerline_mid := ((mid1.1 + mid2.1) / 2, (mid1.2 + mid2.2) / 2)
  let start_point := ((wall1.start_x + wall2.start_x) / 2,
                      (wall1.start_y + wall2.start_y) / 2)
  let end_point := ((wall1.end_x + wall2.end_x) / 2, (wall1.end_y + wall2.end_y) / 2)
  let corridor_length :=
    Real.sqrt ((end_point.1 - start_point.1) ^ 2 + (end_point.2 - start_point.2) ^ 2)
  let angle := wall1.angle
  let direction :=
    if |angle| < 45 ∨ |angle - 180| < 45 then "horizontal"
    else if |angle - 90| < 45 ∨ |angle - 270| < 45 then "vertical"
    else "diagonal"
  let ctype :=
    if 20 < corridor_length ∧ 3 < width then "main"
    else if 10 < corridor_length then "secondary"
    else "cross"
  ⟨idx, ctype, [start_point, centerline_mid, end_point], width, corridor_length,
   direction, angle, [(wall1.guid, wall2.guid)]⟩

/-- The enumerate-from-`idx` loop of `create_corridor_centerlines`. -/
def create_corridor_centerlines_from (idx : Nat) :
    List (Wall × Wall × ℝ) → List Corridor
  | [] => []
  | p :: rest =>
      corridorOfPair idx p.1 p.2.1 p.2.2 :: create_corridor_centerlines_from (idx + 1) rest

/-- Source `CorridorDetector.create_corridor_centerlines`: one corridor per
accepted pair, ids starting at 1. -/
def create_corridor_centerlines (pairs : List (Wall × Wall × ℝ)) : List Corridor :=
  create_corridor_centerlines_from 1 pairs

/-- Horizontal wall running along x from 0 to 25 at y = 0. -/
def wallA : Wall := ⟨"A", 0, 0, 25, 0, 25, 0⟩

/-- Horizontal wall running along x from 0 to 25 at y = 2. -/
def wallB : Wall := ⟨"B", 0, 2, 25, 2, 25, 0⟩

/-- Degenerate wall whose midpoint is the origin. -/
def wallP : Wall := ⟨"P", 0, 0, 0, 0, 0, 0⟩

/-- Degenerate wall whose midpoint is (10, 0). -/
def wallQ : Wall := ⟨"Q", 10, 0, 10, 0, 0, 0⟩

end

/-- Concrete vertex list used by the C3 witness. -/
def demoVerts : List Vec3 := [(1, 2, 3), (0, 5, 1)]

/-- Concrete element list used by the C3 witness. -/
def demoElems : List (Nat × List Vec3) := [(5, demoVerts)]


/-! ### Theorems -/

lemma unpackWord_packWord (w : Nat) (h : w < 4294967296) :
    unpackWord (w % 256) (w / 256 % 256) (w / 65536 % 256) (w / 16777216 % 256) = w := by
  unfold unpackWord
  omega

/-- C1: unpacking the packed blob recovers the vertex list bit for bit, for
every vertex list whose coordinates are 32-bit words. -/
theorem unpack_pack_vertices_roundtrip (vs : List (Nat × Nat × Nat))
    (h : vs.Forall fun v => v.1 < 4294967296 ∧ v.2.1 < 4294967296 ∧ v.2.2 < 4294967296) :
    unpack_vertices (pack_vertices vs) = some vs := by
  induction vs with
  | nil => rfl
  | cons v rest ih =>
      rw [List.forall_cons] at h
      obtain ⟨⟨h1, h2, h3⟩, hrest⟩ := h
      show unpack_vertices (packWord v.1 ++ packWord v.2.1 ++ packWord v.2.2
            ++ pack_vertices rest) = some (v :: rest)
      simp only [packWord, List.cons_append, List.nil_append, List.append_eq,
        unpack_vertices, ih hrest, Option.map_some]
      rw [unpackWord_packWord v.1 h1, unpackWord_packWord v.2.1 h2,
        unpackWord_packWord v.2.2 h3]
      rfl

/-- Witness for C1 at a concrete vertex list. -/
theorem unpack_pack_vertices_roundtrip_witness :
    ([((1 : Nat), 2, 3), (4294967295, 0, 2147483648)].Forall fun v =>
        v.1 < 4294967296 ∧ v.2.1 < 4294967296 ∧ v.2.2 < 4294967296) ∧
    unpack_vertices (pack_vertices [((1 : Nat), 2, 3), (4294967295, 0, 2147483648)]) =
      some [((1 : Nat), 2, 3), (4294967295, 0, 2147483648)] :=
  ⟨by decide, unpack_pack_vertices_roundtrip _ (by decide)⟩


/-- C9: the geometry hash is SHA-256 of the concatenation vertices-then-faces,
it depends only on that concatenation, identical inputs reproduce the
identical digest, and the normals do not enter the digest. -/
theorem compute_hash_sha256_concat_normals_excluded :
    (∀ vb fb : List Nat, compute_hash vb fb = sha256 (vb ++ fb)) ∧
    (∀ vb fb vb2 fb2 : List Nat, vb ++ fb = vb2 ++ fb2 →
        compute_hash vb fb = compute_hash vb2 fb2) ∧
    (∀ vb fb vb2 fb2 : List Nat, vb = vb2 → fb = fb2 →
        compute_hash vb fb = compute_hash vb2 fb2) ∧
    (∀ vs fs ns ns2 : List (Nat × Nat × Nat), geom_hash vs fs ns = geom_hash vs fs ns2) := by
  refine ⟨fun vb fb => rfl, fun vb fb vb2 fb2 h => ?_, ?_, fun vs fs ns ns2 => rfl⟩
  · unfold compute_hash
    rw [h]
  · rintro vb fb vb2 fb2 rfl rfl
    rfl

/-- Witness for C9 at concrete byte blobs. -/
theorem compute_hash_sha256_concat_normals_excluded_witness :
    ([(0 : Nat), 1] ++ [2, 3] = [(0 : Nat)] ++ [1, 2, 3] ∧
      compute_hash [0, 1] [2, 3] = compute_hash [0] [1, 2, 3]) ∧
    ([(7 : Nat)] = [(7 : Nat)] ∧ ([] : List Nat) = [] ∧
      compute_hash [7] [] = compute_hash [7] []) :=
  ⟨⟨rfl, compute_hash_sha256_concat_normals_excluded.2.1 [0, 1] [2, 3] [0] [1, 2, 3] rfl⟩,
   ⟨rfl, rfl, compute_hash_sha256_concat_normals_excluded.2.2.1 [7] [] [7] [] rfl rfl⟩⟩


/-- C2, the code evaluated at the failing input: interning the identical
geometry under two distinct guids stores two rows that carry the same
geometry hash and the same vertices blob, so the store holds two copies of
one distinct shape.  The `INSERT OR IGNORE` only fires on a duplicate guid
under this schema, not on a duplicate hash as the claim (and the comment in
the source) states. -/
theorem populate_duplicate_shape_two_rows :
    (populate_element (populate_element [] "g1" demoVertices demoFaces demoNormals)
        "g2" demoVertices demoFaces demoNormals).map
      (fun r => (r.guid, r.geometry_hash, r.vertices))
      = [("g1", compute_hash (pack_vertices demoVertices) (pack_faces demoFaces),
          pack_vertices demoVertices),
         ("g2", compute_hash (pack_vertices demoVertices) (pack_faces demoFaces),
          pack_vertices demoVertices)] := by
  rfl


lemma foldl_min_spec {α : Type} [LinearOrder α] (a : α) (l : List α) :
    (∀ x ∈ a :: l, l.foldl min a ≤ x) ∧ l.foldl min a ∈ a :: l := by
  induction l generalizing a with
  | nil => exact ⟨by simp, by simp⟩
  | cons b t ih =>
      obtain ⟨ihle, ihmem⟩ := ih (min a b)
      constructor
      · intro x hx
        rcases List.mem_cons.mp hx with rfl | hx
        · exact le_trans (ihle _ (List.mem_cons_self _ _)) (min_le_left _ _)
        rcases List.mem_cons.mp hx with rfl | hx
        · exact le_trans (ihle _ (List.mem_cons_self _ _)) (min_le_right _ _)
        · exact ihle _ (List.mem_cons_of_mem _ hx)
      · rcases List.mem_cons.mp ihmem with h | h
        · rcases min_choice a b with hab | hab
          · exact List.mem_cons.mpr (Or.inl (h.trans hab))
          · exact List.mem_cons.mpr (Or.inr (List.mem_cons.mpr (Or.inl (h.trans hab))))
        · exact List.mem_cons.mpr (Or.inr (List.mem_cons.mpr (Or.inr h)))

lemma foldl_max_spec {α : Type} [LinearOrder α] (a : α) (l : List α) :
    (∀ x ∈ a :: l, x ≤ l.foldl max a) ∧ l.foldl max a ∈ a :: l := by
  induction l generalizing a with
  | nil => exact ⟨by simp, by simp⟩
  | cons b t ih =>
      obtain ⟨ihle, ihmem⟩ := ih (max a b)
      constructor
      · intro x hx
        rcases List.mem_cons.mp hx with rfl | hx
        · exact le_trans (le_max_left _ _) (ihle _ (List.mem_cons_self _ _))
        rcases List.mem_cons.mp hx with rfl | hx
        · exact le_trans (le_max_right _ _) (ihle _ (List.mem_cons_self _ _))
        · exact ihle _ (List.mem_cons_of_mem _ hx)
      · rcases List.mem_cons.mp ihmem with h | h
        · rcases max_choice a b with hab | hab
          · exact List.mem_cons.mpr (Or.inl (h.trans hab))
          · exact List.mem_cons.mpr (Or.inr (List.mem_cons.mpr (Or.inl (h.trans hab))))
        · exact List.mem_cons.mpr (Or.inr (List.mem_cons.mpr (Or.inr h)))

lemma fold_min_map_spec (f : Vec3 → ℝ) (v : Vec3) (rest : List Vec3) :
    (∀ u ∈ v :: rest, (rest.map f).foldl min (f v) ≤ f u) ∧
    (∃ u ∈ v :: rest, f u = (rest.map f).foldl min (f v)) := by
  obtain ⟨hle, hmem⟩ := foldl_min_spec (f v) (rest.map f)
  constructor
  · intro u hu
    rcases List.mem_cons.mp hu with rfl | hu
    · exact hle _ (List.mem_cons_self _ _)
    · exact hle _ (List.mem_cons_of_mem _ (List.mem_map_of_mem f hu))
  · rcases List.mem_cons.mp hmem with h | h
    · exact ⟨v, List.mem_cons_self _ _, h.symm⟩
    · obtain ⟨u, hu, hfu⟩ := List.mem_map.mp h
      exact ⟨u, List.mem_cons_of_mem _ hu, hfu⟩

lemma fold_max_map_spec (f : Vec3 → ℝ) (v : Vec3) (rest : List Vec3) :
    (∀ u ∈ v :: rest, f u ≤ (rest.map f).foldl max (f v)) ∧
    (∃ u ∈ v :: rest, f u = (rest.map f).foldl max (f v)) := by
  obtain ⟨hle, hmem⟩ := foldl_max_spec (f v) (rest.map f)
  constructor
  · intro u hu
    rcases List.mem_cons.mp hu with rfl | hu
    · exact hle _ (List.mem_cons_self _ _)
    · exact hle _ (List.mem_cons_of_mem _ (List.mem_map_of_mem f hu))
  · rcases List.mem_cons.mp hmem with h | h
    · exact ⟨v, List.mem_cons_self _ _, h.symm⟩
    · obtain ⟨u, hu, hfu⟩ := List.mem_map.mp h
      exact ⟨u, List.mem_cons_of_mem _ hu, hfu⟩

/-- C3: for every element whose geometry unpacks to a non-empty vertex list,
the reindex pass writes the tight axis-aligned bounding box of that vertex
set: every vertex lies inside the stored box and each of the six bounds is
attained by some vertex. -/
theorem fix_rtree_tight_bbox (elems : List (Nat × List Vec3)) (id : Nat)
    (vs : List Vec3) (hmem : (id, vs) ∈ elems) (hne : vs ≠ []) :
    (id, calculate_bbox vs) ∈ fix_rtree_bboxes elems ∧
    (∀ v ∈ vs,
      (calculate_bbox vs).minX ≤ v.1 ∧ v.1 ≤ (calculate_bbox vs).maxX ∧
      (calculate_bbox vs).minY ≤ v.2.1 ∧ v.2.1 ≤ (calculate_bbox vs).maxY ∧
      (calculate_bbox vs).minZ ≤ v.2.2 ∧ v.2.2 ≤ (calculate_bbox vs).maxZ) ∧
    (∃ v ∈ vs, v.1 = (calculate_bbox vs).minX) ∧
    (∃ v ∈ vs, v.1 = (calculate_bbox vs).maxX) ∧
    (∃ v ∈ vs, v.2.1 = (calculate_bbox vs).minY) ∧
    (∃ v ∈ vs, v.2.1 = (calculate_bbox vs).maxY) ∧
    (∃ v ∈ vs, v.2.2 = (calculate_bbox vs).minZ) ∧
    (∃ v ∈ vs, v.2.2 = (calculate_bbox vs).maxZ) := by
  obtain ⟨v, rest, rfl⟩ : ∃ v rest, vs = v :: rest := by
    cases vs with
    | nil => exact absurd rfl hne
    | cons v rest => exact ⟨v, rest, rfl⟩
  refine ⟨List.mem_filterMap.mpr ⟨(id, v :: rest), hmem, by simp⟩, ?_, ?_, ?_, ?_, ?_, ?_, ?_⟩
  · intro u hu
    exact ⟨(fold_min_map_spec (fun p => p.1) v rest).1 u hu,
      (fold_max_map_spec (fun p => p.1) v rest).1 u hu,
      (fold_min_map_spec (fun p => p.2.1) v rest).1 u hu,
      (fold_max_map_spec (fun p => p.2.1) v rest).1 u hu,
      (fold_min_map_spec (fun p => p.2.2) v rest).1 u hu,
      (fold_max_map_spec (fun p => p.2.2) v rest).1 u hu⟩
  · exact (fold_min_map_spec (fun p => p.1) v rest).2
  · exact (fold_max_map_spec (fun p => p.1) v rest).2
  · exact (fold_min_map_spec (fun p => p.2.1) v rest).2
  · exact (fold_max_map_spec (fun p => p.2.1) v rest).2
  · exact (fold_min_map_spec (fun p => p.2.2) v rest).2
  · exact (fold_max_map_spec (fun p => p.2.2) v rest).2


/-- Witness for C3 at a concrete element list. -/
theorem fix_rtree_tight_bbox_witness :
    ((5, demoVerts) ∈ demoElems) ∧ (demoVerts ≠ []) ∧
    ((5, calculate_bbox demoVerts) ∈ fix_rtree_bboxes demoElems ∧
     (∀ v ∈ demoVerts,
        (calculate_bbox demoVerts).minX ≤ v.1 ∧ v.1 ≤ (calculate_bbox demoVerts).maxX ∧
        (calculate_bbox demoVerts).minY ≤ v.2.1 ∧ v.2.1 ≤ (calculate_bbox demoVerts).maxY ∧
        (calculate_bbox demoVerts).minZ ≤ v.2.2 ∧ v.2.2 ≤ (calculate_bbox demoVerts).maxZ) ∧
     (∃ v ∈ demoVerts, v.1 = (calculate_bbox demoVerts).minX) ∧
     (∃ v ∈ demoVerts, v.1 = (calculate_bbox demoVerts).maxX) ∧
     (∃ v ∈ demoVerts, v.2.1 = (calculate_bbox demoVerts).minY) ∧
     (∃ v ∈ demoVerts, v.2.1 = (calculate_bbox demoVerts).maxY) ∧
     (∃ v ∈ demoVerts, v.2.2 = (calculate_bbox demoVerts).minZ) ∧
     (∃ v ∈ demoVerts, v.2.2 = (calculate_bbox demoVerts).maxZ)) :=
  ⟨by simp [demoElems], by simp [demoVerts],
   fix_rtree_tight_bbox demoElems 5 demoVerts (by simp [demoElems]) (by simp [demoVerts])⟩

lemma create_from_type_eq (idx : Nat) (pairs : List (Wall × Wall × ℝ)) :
    (create_corridor_centerlines_from idx pairs).map (fun c => c.corridor_type) =
    (create_corridor_centerlines_from idx pairs).map (fun c =>
      if 20 < c.length ∧ 3 < c.width then "main"
      else if 10 < c.length then "secondary" else "cross") := by
  induction pairs generalizing idx with
  | nil => rfl
  | cons p rest ih =>
      simp only [create_corridor_centerlines_from, List.map_cons, ih]
      rfl

lemma sqrt_625 : Real.sqrt 625 = 25 := by
  rw [show (625 : ℝ) = 25 ^ 2 by norm_num, Real.sqrt_sq (by norm_num : (0 : ℝ) ≤ 25)]

/-- C4: every corridor emitted by `create_corridor_centerlines` carries the
type given exactly by the documented thresholds (`length > 20` and
`width > 3` → main, otherwise `length > 10` → secondary, otherwise cross);
in particular the pair of 25 m walls 2 m apart yields one corridor of width
2 and length 25 classified secondary, not main. -/
theorem corridor_classification_thresholds :
    (∀ pairs : List (Wall × Wall × ℝ),
      (create_corridor_centerlines pairs).map (fun c => c.corridor_type) =
      (create_corridor_centerlines pairs).map (fun c =>
        if 20 < c.length ∧ 3 < c.width then "main"
        else if 10 < c.length then "secondary" else "cross")) ∧
    (create_corridor_centerlines [(wallA, wallB, 2)]).map
        (fun c => (c.corridor_type, c.width, c.length)) = [("secondary", 2, 25)] := by
  constructor
  · intro pairs
    exact create_from_type_eq 1 pairs
  · simp only [create_corridor_centerlines, create_corridor_centerlines_from,
      corridorOfPair, wallA, wallB, Wall.midpoint, List.map_cons, List.map_nil]
    norm_num
    rw [show ((625 : ℝ)) = 625 by norm_num, sqrt_625]
    norm_num

lemma pairFilter_eq_some {max_width min_width : ℝ} {w1 w2 : Wall}
    {p : Wall × Wall × ℝ} :
    pairFilter max_width min_width w1 w2 = some p ↔
      (min_width ≤ midpoint_distance w1 w2 ∧ midpoint_distance w1 w2 ≤ max_width) ∧
      check_wall_overlap w1 w2 2.0 ∧ p = (w1, w2, midpoint_distance w1 w2) := by
  simp only [pairFilter]
  split_ifs with h1 h2
  · constructor
    · intro h
      exact ⟨h1, h2, (Option.some.inj h).symm⟩
    · rintro ⟨-, -, rfl⟩
      rfl
  · constructor
    · intro h
      exact absurd h (by simp)
    · rintro ⟨-, h, -⟩
      exact absurd h h2
  · constructor
    · intro h
      exact absurd h (by simp)
    · rintro ⟨h, -, -⟩
      exact absurd h h1

lemma detect_pairs_sound (ws : List Wall) (p : Wall × Wall × ℝ)
    (hp : p ∈ detect_corridor_pairs ws 8 1.5) :
    p.2.2 = midpoint_distance p.1 p.2.1 ∧ 1.5 ≤ p.2.2 ∧ p.2.2 ≤ 8 ∧
      check_wall_overlap p.1 p.2.1 2.0 := by
  induction ws with
  | nil => simp [detect_corridor_pairs] at hp
  | cons w1 rest ih =>
      rcases List.mem_append.mp hp with h | h
      · obtain ⟨w2, -, hf⟩ := List.mem_filterMap.mp h
        obtain ⟨⟨hlo, hhi⟩, hov, rfl⟩ := pairFilter_eq_some.mp hf
        exact ⟨rfl, hlo, hhi, hov⟩
      · exact ih h

lemma detect_pairs_complete (ws : List Wall) (w1 w2 : Wall)
    (hsub : List.Sublist [w1, w2] ws)
    (hlo : 1.5 ≤ midpoint_distance w1 w2) (hhi : midpoint_distance w1 w2 ≤ 8)
    (hov : check_wall_overlap w1 w2 2.0) :
    (w1, w2, midpoint_distance w1 w2) ∈ detect_corridor_pairs ws 8 1.5 := by
  induction ws with
  | nil => exact absurd (List.Sublist.length_le hsub) (by simp)
  | cons w rest ih =>
      cases hsub with
      | cons _ hsub2 =>
          exact List.mem_append.mpr (Or.inr (ih hsub2))
      | cons₂ _ hsub2 =>
          refine List.mem_append.mpr (Or.inl (List.mem_filterMap.mpr ⟨w2, ?_, ?_⟩))
          · exact hsub2.mem (List.mem_cons_self _ _)
          · exact pairFilter_eq_some.mpr ⟨⟨hlo, hhi⟩, hov, rfl⟩

/-- C5: a pair of bucketed walls is accepted as a corridor candidate exactly
when the midpoint distance lies in [1.5, 8] and the axis overlap check at
2 m passes; every accepted triple records that distance, every qualifying
ordered pair is accepted, and a pair of walls whose midpoints are 10 m apart
yields no candidate. -/
theorem detect_corridor_pairs_envelope :
    (∀ (ws : List Wall) (p : Wall × Wall × ℝ), p ∈ detect_corridor_pairs ws 8 1.5 →
      p.2.2 = midpoint_distance p.1 p.2.1 ∧ 1.5 ≤ p.2.2 ∧ p.2.2 ≤ 8 ∧
        check_wall_overlap p.1 p.2.1 2.0) ∧
    (∀ (ws : List Wall) (w1 w2 : Wall), List.Sublist [w1, w2] ws →
      1.5 ≤ midpoint_distance w1 w2 → midpoint_distance w1 w2 ≤ 8 →
      check_wall_overlap w1 w2 2.0 →
      (w1, w2, midpoint_distance w1 w2) ∈ detect_corridor_pairs ws 8 1.5) ∧
    (∀ w1 w2 : Wall, midpoint_distance w1 w2 = 10 →
      detect_corridor_pairs [w1, w2] 8 1.5 = []) := by
  refine ⟨detect_pairs_sound, detect_pairs_complete, fun w1 w2 h => ?_⟩
  have hnone : pairFilter 8 1.5 w1 w2 = none := by
    simp only [pairFilter, h]
    norm_num
  simp [detect_corridor_pairs, hnone]

lemma midpoint_distance_PQ : midpoint_distance wallP wallQ = 10 := by
  unfold midpoint_distance Wall.midpoint wallP wallQ
  norm_num
  rw [show ((100 : ℝ)) = 10 ^ 2 by norm_num, Real.sqrt_sq (by norm_num : (0 : ℝ) ≤ 10)]

/-- Witness for C5: two concrete walls whose midpoints are 10 m apart
produce no corridor candidate. -/
theorem detect_corridor_pairs_envelope_witness :
    midpoint_distance wallP wallQ = 10 ∧
    detect_corridor_pairs [wallP, wallQ] 8 1.5 = [] :=
  ⟨midpoint_distance_PQ,
   detect_corridor_pairs_envelope.2.2 wallP wallQ midpoint_distance_PQ⟩

/-- C6 (amended): for every polyline with exactly one point, extrusion falls
back to a unit-length box of the given thickness and height placed at that
point; the empty polyline instead raises on the `points[0]` access. -/
theorem extruded_polyline_single_point_fallback
    (points : List (ℝ × ℝ)) (thickness height cz : ℝ) (hlen : points.length = 1) :
    ExtrudedPolylineGenerator.generate points thickness height cz =
      some (BoxGenerator.generate 1.0 thickness height
        (points.getD 0 (0, 0)).1 (points.getD 0 (0, 0)).2 cz) := by
  obtain ⟨p, rfl⟩ := List.length_eq_one.mp hlen
  simp [ExtrudedPolylineGenerator.generate]

/-- Witness for C6 at the one-point polyline [(3, 4)]. -/
theorem extruded_polyline_single_point_fallback_witness :
    ([((3 : ℝ), 4)].length = 1) ∧
    ExtrudedPolylineGenerator.generate [((3 : ℝ), 4)] 0.2 3 0 =
      some (BoxGenerator.generate 1.0 0.2 3
        (([((3 : ℝ), 4)].getD 0 (0, 0)).1) (([((3 : ℝ), 4)].getD 0 (0, 0)).2) 0) :=
  ⟨rfl, extruded_polyline_single_point_fallback [((3 : ℝ), 4)] 0.2 3 0 rfl⟩

/-- C6 counterexample: on the empty polyline, which also has fewer than two
points, the generator does not fall back to any box, it raises
(`points[0]` on an empty list), so the claimed fallback fails there. -/
theorem extruded_polyline_empty_raises :
    ExtrudedPolylineGenerator.generate [] 0.2 3 0 = none ∧
    ¬ ∃ x y : ℝ, ExtrudedPolylineGenerator.generate [] 0.2 3 0 =
        some (BoxGenerator.generate 1.0 0.2 3 x y 0) := by
  have h : ExtrudedPolylineGenerator.generate ([] : List (ℝ × ℝ)) 0.2 3 0 = none := by
    simp [ExtrudedPolylineGenerator.generate]
  refine ⟨h, ?_⟩
  rintro ⟨x, y, hxy⟩
  rw [h] at hxy
  exact Option.noConfusion hxy

/-- C7: `rotate_vertices_z` applies the standard 2D rotation matrix to the
(x, y) components of every vertex and leaves every z coordinate unchanged,
`translate_vertices` adds the constant offset to every vertex, and the
oriented box of length 10 and width 2 rotated by 90° has a bounding box with
X extent 2 and Y extent 10. -/
theorem rotate_translate_oriented_box :
    (∀ (vs : List Vec3) (θ : ℝ),
      rotate_vertices_z vs θ = vs.map fun v =>
        (v.1 * Real.cos θ - v.2.1 * Real.sin θ,
         v.1 * Real.sin θ + v.2.1 * Real.cos θ, v.2.2)) ∧
    (∀ (vs : List Vec3) (θ : ℝ),
      (rotate_vertices_z vs θ).map (fun v => v.2.2) = vs.map fun v => v.2.2) ∧
    (∀ (vs : List Vec3) (dx dy dz : ℝ),
      translate_vertices vs dx dy dz = vs.map fun v =>
        (v.1 + dx, v.2.1 + dy, v.2.2 + dz)) ∧
    ((calculate_bbox (OrientedBoxGenerator.generate 10 2 3 0 0 0
        (Real.pi / 2)).vertices).maxX -
      (calculate_bbox (OrientedBoxGenerator.generate 10 2 3 0 0 0
        (Real.pi / 2)).vertices).minX = 2 ∧
     (calculate_bbox (OrientedBoxGenerator.generate 10 2 3 0 0 0
        (Real.pi / 2)).vertices).maxY -
      (calculate_bbox (OrientedBoxGenerator.generate 10 2 3 0 0 0
        (Real.pi / 2)).vertices).minY = 10) := by
  refine ⟨fun vs θ => rfl, fun vs θ => ?_, fun vs dx dy dz => rfl, ?_⟩
  · simp only [rotate_vertices_z, List.map_map]
    rfl
  · simp only [OrientedBoxGenerator.generate, Real.cos_pi_div_two, Real.sin_pi_div_two,
      List.map_cons, List.map_nil, List.cons_append, List.nil_append, calculate_bbox]
    norm_num [min_def, max_def]

/-- C8 (amended): both box generators emit exactly 8 vertices and 12
triangles with every face index below 8; `BoxGenerator.generate` is anchored
at the bottom center, its z coordinates taking exactly the values `cz` and
`cz + height` with both attained and x, y at `center ± half-extent`;
`generate_box_geometry` is instead anchored at the volume center, its z
coordinates taking exactly `cz - height/2` and `cz + height/2`. -/
lemma boxFaces_idx_lt :
    boxFaces.Forall (fun f => f.1 < 8 ∧ f.2.1 < 8 ∧ f.2.2 < 8) := by
  decide

theorem box_generators_shape (w d h cx cy cz : ℝ) :
    ((BoxGenerator.generate w d h cx cy cz).vertices.length = 8 ∧
     (BoxGenerator.generate w d h cx cy cz).faces.length = 12 ∧
     (BoxGenerator.generate w d h cx cy cz).faces.Forall
       (fun f => f.1 < 8 ∧ f.2.1 < 8 ∧ f.2.2 < 8) ∧
     (BoxGenerator.generate w d h cx cy cz).vertices.Forall
       (fun v => (v.1 = cx - w / 2 ∨ v.1 = cx + w / 2) ∧
                 (v.2.1 = cy - d / 2 ∨ v.2.1 = cy + d / 2) ∧
                 (v.2.2 = cz ∨ v.2.2 = cz + h)) ∧
     (∃ v ∈ (BoxGenerator.generate w d h cx cy cz).vertices, v.2.2 = cz) ∧
     (∃ v ∈ (BoxGenerator.generate w d h cx cy cz).vertices, v.2.2 = cz + h)) ∧
    ((generate_box_geometry w d h cx cy cz).vertices.length = 8 ∧
     (generate_box_geometry w d h cx cy cz).faces.length = 12 ∧
     (generate_box_geometry w d h cx cy cz).faces.Forall
       (fun f => f.1 < 8 ∧ f.2.1 < 8 ∧ f.2.2 < 8) ∧
     (generate_box_geometry w d h cx cy cz).vertices.Forall
       (fun v => v.2.2 = cz - h / 2 ∨ v.2.2 = cz + h / 2) ∧
     (∃ v ∈ (generate_box_geometry w d h cx cy cz).vertices, v.2.2 = cz - h / 2) ∧
     (∃ v ∈ (generate_box_geometry w d h cx cy cz).vertices, v.2.2 = cz + h / 2)) := by
  refine ⟨⟨rfl, rfl, boxFaces_idx_lt, ?_, ?_, ?_⟩, rfl, rfl, boxFaces_idx_lt, ?_, ?_, ?_⟩
  · simp [BoxGenerator.generate, List.Forall]
  · exact ⟨(cx - w / 2, cy - d / 2, cz), by simp [BoxGenerator.generate], rfl⟩
  · exact ⟨(cx - w / 2, cy - d / 2, cz + h), by simp [BoxGenerator.generate], rfl⟩
  · simp [generate_box_geometry, List.Forall]
  · exact ⟨(cx - w / 2, cy - d / 2, cz - h / 2), by simp [generate_box_geometry], rfl⟩
  · exact ⟨(cx - w / 2, cy - d / 2, cz + h / 2), by simp [generate_box_geometry], rfl⟩

/-- C8 counterexample: `generate_box_geometry` (generate_3d_geometry.py,
one of the two cited box generators) is not bottom-anchored: with height 2
and anchor z 0 its vertex z coordinates are not confined to
[anchor_z, anchor_z + height] = [0, 2]. -/
theorem generate_box_geometry_not_bottom_anchored :
    ¬ ((generate_box_geometry 1 1 2 0 0 0).vertices.Forall
        fun v => v.2.2 = 0 ∨ v.2.2 = 0 + 2) := by
  intro hall
  simp [generate_box_geometry, List.Forall] at hall

/-- C10: the wall generator compensates for the volume-centered box
generator by lifting the center by height/2, so for positive height the wall
mesh's z coordinates span exactly [center_z, center_z + height]: every
vertex lies in that band and both ends are attained. -/
theorem wall_geometry_z_span (cx cy cz t l h : ℝ) (hh : 0 < h) :
    ((generate_wall_geometry cx cy cz t l h).vertices.Forall
      fun v => cz ≤ v.2.2 ∧ v.2.2 ≤ cz + h) ∧
    (∃ v ∈ (generate_wall_geometry cx cy cz t l h).vertices, v.2.2 = cz) ∧
    (∃ v ∈ (generate_wall_geometry cx cy cz t l h).vertices, v.2.2 = cz + h) := by
  refine ⟨?_, ?_, ?_⟩
  · simp only [generate_wall_geometry, generate_box_geometry, List.Forall]
    norm_num
    repeat' constructor
    all_goals linarith
  · refine ⟨(cx - l / 2, cy - t / 2, cz + h / 2 - h / 2), ?_, by ring⟩
    simp [generate_wall_geometry, generate_box_geometry]
  · refine ⟨(cx - l / 2, cy - t / 2, cz + h / 2 + h / 2), ?_, by ring⟩
    simp [generate_wall_geometry, generate_box_geometry]

/-- Witness for C10 at a concrete wall. -/
theorem wall_geometry_z_span_witness :
    (0 : ℝ) < 3 ∧
    (((generate_wall_geometry 1 2 5 0.2 4 3).vertices.Forall
        fun v => 5 ≤ v.2.2 ∧ v.2.2 ≤ 5 + 3) ∧
     (∃ v ∈ (generate_wall_geometry 1 2 5 0.2 4 3).vertices, v.2.2 = 5) ∧
     (∃ v ∈ (generate_wall_geometry 1 2 5 0.2 4 3).vertices, v.2.2 = 5 + 3)) :=
  ⟨by norm_num, wall_geometry_z_span 1 2 5 0.2 4 3 (by norm_num)⟩
